import Mathlib

/-!
Shallow embedding of the Milvus engine coordinator (src/core/src/db/DBImpl.cpp).

The coordinator (class DBImpl) owns the per-table lifecycle of vector data.
Pure translations of its public operations are given below.  External
collaborators (metadata store, memory manager, index engine, scheduler,
cache manager) are not part of the provided sources, so they are modelled
from the specification where a claim needs them; each such definition is
marked in its doc comment.  Machine integers are modelled as Int or Nat.
Stateful C++ methods become functions on an explicit DBState; out-params
become returned values; C++ exceptions become Except errors.
-/

/-- File lifecycle states of a TableFile, from meta::TableFileSchema. -/
inductive FileType
  | NEW
  | NEW_MERGE
  | NEW_INDEX
  | RAW
  | TO_INDEX
  | INDEX
  | BACKUP
  | TO_DELETE
deriving DecidableEq, Repr

/-- Status codes used by the coordinator paths under verification. -/
inductive StatusCode
  | OK
  | DB_ERROR
  | DB_NOT_FOUND
  | DB_ALREADY_EXIST
  | SERVER_CACHE_FULL
deriving DecidableEq, Repr

/-- Status value returned by coordinator operations, mirroring class Status. -/
structure Status where
  code : StatusCode
  message : String
deriving DecidableEq, Repr

def okStatus : Status := ⟨StatusCode.OK, ""⟩

/-- Status produced by the shutting-down guard in DBImpl public methods. -/
def shuttingDownStatus : Status := ⟨StatusCode.DB_ERROR, "Milsvus server is shutdown!"⟩

def notFoundStatus : Status := ⟨StatusCode.DB_NOT_FOUND, "Table not found"⟩

def alreadyExistStatus : Status := ⟨StatusCode.DB_ALREADY_EXIST, "Table already exists"⟩

def cacheFullStatus : Status := ⟨StatusCode.SERVER_CACHE_FULL, "Cache is full"⟩

def invalidEngineStatus : Status := ⟨StatusCode.DB_ERROR, "Invalid engine type"⟩

def Status.ok (s : Status) : Bool := s.code == StatusCode.OK

/-- Numeric value of EngineType::FAISS_IDMAP, the raw-vector engine family. -/
def EngineType.FAISS_IDMAP : Int := 1

/-- Modelled from the spec: constant ONE_MB from Constants.h (not under src),
the spec states index_file_size is stored in bytes as MB times 2 to the 20. -/
def ONE_MB : Int := 1048576

/-- Table schema, from meta::TableSchema (index_file_size in the unit the
caller of the current operation uses: MB at the API boundary, bytes in meta). -/
structure TableSchema where
  table_id : String
  dimension : Nat
  index_file_size : Int
  metric_type : Int
  engine_type : Int
  nlist : Nat
  flag : Int
deriving DecidableEq, Repr

/-- Per-table index description, from TableIndex. -/
structure TableIndex where
  engine_type : Int
  metric_type : Int
  nlist : Nat
deriving DecidableEq, Repr

/-- Default TableIndex returned when meta has no entry for a table. -/
def defaultTableIndex : TableIndex := ⟨EngineType.FAISS_IDMAP, 1, 16384⟩

/-- On-disk file record, from meta::TableFileSchema. -/
structure TableFileSchema where
  file_id : Nat
  table_id : String
  date : Int
  dimension : Nat
  file_size : Int
  row_count : Nat
  location : String
  engine_type : Int
  metric_type : Int
  nlist : Nat
  index_file_size : Int
  file_type : FileType
deriving DecidableEq, Repr

/-- Modelled from the spec: state of the metadata store (SqliteMetaImpl is not
under src).  It persists table schemas, file records and per-table index info,
per the meta contract in the spec. -/
structure MetaState where
  tables : List TableSchema
  files : List TableFileSchema
  indexes : List (String × TableIndex)
deriving DecidableEq, Repr

/-- Association-list lookup for the per-table index info. -/
def lookupIdx : List (String × TableIndex) → String → Option TableIndex
  | [], _ => none
  | p :: rest, tid => if p.1 = tid then some p.2 else lookupIdx rest tid

/-- Removal of the per-table index entry. -/
def removeIdx (l : List (String × TableIndex)) (tid : String) : List (String × TableIndex) :=
  l.filter (fun p => p.1 != tid)

/-- Lookup of a table schema by id. -/
def lookupTable : List TableSchema → String → Option TableSchema
  | [], _ => none
  | t :: rest, tid => if t.table_id = tid then some t else lookupTable rest tid

/-- Modelled from the spec: meta CreateTable persists the schema, failing with
AlreadyExists on a duplicate id; the index info starts from the schema fields. -/
def MetaState.CreateTable (m : MetaState) (schema : TableSchema) : Status × MetaState :=
  match lookupTable m.tables schema.table_id with
  | some _ => (alreadyExistStatus, m)
  | none =>
    (okStatus,
     { m with
       tables := schema :: m.tables,
       indexes := (schema.table_id, ⟨schema.engine_type, schema.metric_type, schema.nlist⟩)
                  :: removeIdx m.indexes schema.table_id })

/-- Modelled from the spec: meta DescribeTable populates the schema fields of
the named table, NotFound when the table is unknown. -/
def MetaState.DescribeTable (m : MetaState) (schema : TableSchema) : Status × TableSchema :=
  match lookupTable m.tables schema.table_id with
  | some t => (okStatus, t)
  | none => (notFoundStatus, schema)

/-- Modelled from the spec: meta DeleteTable soft-deletes the table record. -/
def MetaState.DeleteTable (m : MetaState) (tid : String) : MetaState :=
  { m with tables := m.tables.filter (fun t => t.table_id != tid) }

/-- Modelled from the spec: meta DropPartitionsByDates marks the files of the
table whose date is in the given set as TO_DELETE. -/
def MetaState.DropPartitionsByDates (m : MetaState) (tid : String) (dates : List Int) : MetaState :=
  { m with files := m.files.map (fun f =>
      if f.table_id = tid ∧ f.date ∈ dates then { f with file_type := FileType.TO_DELETE } else f) }

/-- Modelled from the spec: meta UpdateTableFlag stores the opaque flag. -/
def MetaState.UpdateTableFlag (m : MetaState) (tid : String) (flag : Int) : Status × MetaState :=
  (okStatus, { m with tables := m.tables.map (fun t =>
      if t.table_id = tid then { t with flag := flag } else t) })

/-- Modelled from the spec: meta Count sums row_count across non-deleted files. -/
def MetaState.Count (m : MetaState) (tid : String) : Nat :=
  ((m.files.filter (fun f => f.table_id == tid && f.file_type != FileType.TO_DELETE)).map
    TableFileSchema.row_count).sum

/-- Modelled from the spec: meta Size totals on-disk bytes of the file table. -/
def MetaState.Size (m : MetaState) : Int :=
  (m.files.map TableFileSchema.file_size).sum

/-- A file is a candidate for search dispatch (RAW, TO_INDEX or INDEX state). -/
def searchable (f : TableFileSchema) : Bool :=
  f.file_type == FileType.RAW || f.file_type == FileType.TO_INDEX || f.file_type == FileType.INDEX

/-- Modelled from the spec: meta FilesToSearch returns the searchable files of
the table, filtered by the id set and by the date set when these are
non-empty.  The date-partitioned result is modelled already flattened in meta
listing order, which is how every caller in DBImpl.cpp consumes it. -/
def MetaState.FilesToSearch (m : MetaState) (tid : String) (ids : List Nat) (dates : List Int) :
    List TableFileSchema :=
  m.files.filter (fun f =>
    f.table_id == tid && searchable f &&
    (ids.isEmpty || ids.contains f.file_id) &&
    (dates.isEmpty || dates.contains f.date))

/-- Modelled from the spec: meta FilesByType returns ids of the files of the
table whose file_type lies in the given state set. -/
def MetaState.FilesByType (m : MetaState) (tid : String) (types : List FileType) : List Nat :=
  (m.files.filter (fun f => f.table_id == tid && types.contains f.file_type)).map
    TableFileSchema.file_id

/-- Modelled from the spec: meta UpdateTableFilesToIndex re-marks the RAW files
of the table as TO_INDEX. -/
def MetaState.UpdateTableFilesToIndex (m : MetaState) (tid : String) : MetaState :=
  { m with files := m.files.map (fun f =>
      if f.table_id = tid ∧ f.file_type = FileType.RAW then { f with file_type := FileType.TO_INDEX }
      else f) }

/-- Modelled from the spec: meta DescribeTableIndex reads the per-table index
info. -/
def MetaState.DescribeTableIndex (m : MetaState) (tid : String) : Status × TableIndex :=
  match lookupIdx m.indexes tid with
  | some idx => (okStatus, idx)
  | none => (notFoundStatus, defaultTableIndex)

/-- Modelled from the spec: meta UpdateTableIndex stores the per-table index
info. -/
def MetaState.UpdateTableIndex (m : MetaState) (tid : String) (idx : TableIndex) : Status × MetaState :=
  (okStatus, { m with indexes := (tid, idx) :: removeIdx m.indexes tid })

/-- Modelled from the spec: meta DropTableIndex clears the per-table index
info. -/
def MetaState.DropTableIndex (m : MetaState) (tid : String) : Status × MetaState :=
  (okStatus, { m with indexes := removeIdx m.indexes tid })

/-- Coordinator state: the atomic shutting_down flag, the metadata store and
the per-table in-memory insert buffers (vector counts) of the memory manager. -/
structure DBState where
  shutting_down : Bool
  meta : MetaState
  mem : List (String × Nat)
deriving DecidableEq, Repr

/-- Modelled from the spec: the memory manager buffers inserted vectors per
table (represented by a running count). -/
def memInsert (mem : List (String × Nat)) (tid : String) (n : Nat) : List (String × Nat) :=
  match mem with
  | [] => [(tid, n)]
  | p :: rest => if p.1 = tid then (p.1, p.2 + n) :: rest else p :: memInsert rest tid n

/-- Modelled from the spec: EraseMemVector drops the insert buffer of a table. -/
def memErase (mem : List (String × Nat)) (tid : String) : List (String × Nat) :=
  mem.filter (fun p => p.1 != tid)

/-- DBImpl::CreateTable: guard, then store the schema with index_file_size
scaled from MB to bytes. -/
def DBImpl.CreateTable (db : DBState) (schema : TableSchema) : Status × DBState :=
  if db.shutting_down then (shuttingDownStatus, db)
  else
    let temp := { schema with index_file_size := schema.index_file_size * ONE_MB }
    let r := db.meta.CreateTable temp
    (r.1, { db with meta := r.2 })

/-- DBImpl::DeleteTable: guard; with empty dates erase the memory buffer and
soft-delete the table (the DeleteJob handed to the external scheduler is not
part of coordinator state); otherwise drop only the partitions of those dates. -/
def DBImpl.DeleteTable (db : DBState) (tid : String) (dates : List Int) : Status × DBState :=
  if db.shutting_down then (shuttingDownStatus, db)
  else if dates.isEmpty then
    (okStatus, { db with mem := memErase db.mem tid, meta := db.meta.DeleteTable tid })
  else
    (okStatus, { db with meta := db.meta.DropPartitionsByDates tid dates })

/-- DBImpl::DescribeTable: guard, then read the schema and scale
index_file_size from bytes back to MB. -/
def DBImpl.DescribeTable (db : DBState) (schema : TableSchema) : Status × TableSchema :=
  if db.shutting_down then (shuttingDownStatus, schema)
  else
    let r := db.meta.DescribeTable schema
    (r.1, { r.2 with index_file_size := r.2.index_file_size / ONE_MB })

/-- DBImpl::HasTable: guard, then ask meta. -/
def DBImpl.HasTable (db : DBState) (tid : String) : Status × Bool :=
  if db.shutting_down then (shuttingDownStatus, false)
  else (okStatus, (lookupTable db.meta.tables tid).isSome)

/-- DBImpl::AllTables: guard, then snapshot the table list. -/
def DBImpl.AllTables (db : DBState) : Status × List TableSchema :=
  if db.shutting_down then (shuttingDownStatus, [])
  else (okStatus, db.meta.tables)

/-- DBImpl::UpdateTableFlag: guard, then delegate to meta. -/
def DBImpl.UpdateTableFlag (db : DBState) (tid : String) (flag : Int) : Status × DBState :=
  if db.shutting_down then (shuttingDownStatus, db)
  else
    let r := db.meta.UpdateTableFlag tid flag
    (r.1, { db with meta := r.2 })

/-- DBImpl::GetTableRowCount: guard, then meta Count. -/
def DBImpl.GetTableRowCount (db : DBState) (tid : String) : Status × Nat :=
  if db.shutting_down then (shuttingDownStatus, 0)
  else (okStatus, db.meta.Count tid)

/-- DBImpl::InsertVectors: guard, then route to the memory manager, which
fills the id list (generated monotonically for this batch). -/
def DBImpl.InsertVectors (db : DBState) (tid : String) (n : Nat) : Status × DBState × List Nat :=
  if db.shutting_down then (shuttingDownStatus, db, [])
  else (okStatus, { db with mem := memInsert db.mem tid n }, List.range n)

/-- DBImpl::Size: guard, then meta Size. -/
def DBImpl.Size (db : DBState) : Status × Int :=
  if db.shutting_down then (shuttingDownStatus, 0)
  else (okStatus, db.meta.Size)

/-- Search job as assembled by DBImpl::QueryAsync: k, nq, nprobe, the caller
vector buffer (None models a null pointer) and the attached index files. -/
structure SearchJob where
  k : Nat
  nq : Nat
  nprobe : Nat
  vectors : Option (List Int)
  files : List TableFileSchema
deriving DecidableEq, Repr

/-- DBImpl::QueryAsync: build the SearchJob from the given parameters, submit
it to the external job manager (modelled by the sched parameter giving the
terminal job status), wait, and propagate the job status.  The returned list
is the submission trace.  No parameter validation is performed here. -/
def DBImpl.QueryAsync (sched : SearchJob → Status) (files : List TableFileSchema)
    (k nq nprobe : Nat) (vectors : Option (List Int)) : Status × List SearchJob :=
  let job : SearchJob := ⟨k, nq, nprobe, vectors, files⟩
  let st := sched job
  if st.ok then (okStatus, [job]) else (st, [job])

/-- DBImpl::Query overload taking a date set: guard, fetch the files to search
for those dates, flatten, and dispatch through QueryAsync. -/
def DBImpl.QueryByDates (sched : SearchJob → Status) (db : DBState) (tid : String)
    (k nq nprobe : Nat) (vectors : Option (List Int)) (dates : List Int) :
    Status × List SearchJob :=
  if db.shutting_down then (shuttingDownStatus, [])
  else
    let files := db.meta.FilesToSearch tid [] dates
    DBImpl.QueryAsync sched files k nq nprobe vectors

/-- DBImpl::Query default overload: guard, then query over the current date
(passed here as the today parameter, from utils::GetDate). -/
def DBImpl.Query (sched : SearchJob → Status) (today : Int) (db : DBState) (tid : String)
    (k nq nprobe : Nat) (vectors : Option (List Int)) : Status × List SearchJob :=
  if db.shutting_down then (shuttingDownStatus, [])
  else DBImpl.QueryByDates sched db tid k nq nprobe vectors [today]

/-- Character test for a decimal digit, as used by the strtoul model. -/
def isDigitCh (c : Char) : Bool := decide ('0' ≤ c) && decide (c ≤ '9')

/-- Leading-whitespace skip of the strtoul model. -/
def skipSpaces : List Char → List Char
  | [] => []
  | c :: rest => if c = ' ' then skipSpaces rest else c :: rest

/-- Greedy decimal-digit accumulation of the strtoul model. -/
def takeDigits (acc : Nat) : List Char → Nat
  | [] => acc
  | c :: rest => if isDigitCh c then takeDigits (acc * 10 + (c.toNat - 48)) rest else acc

/-- Test whether the remaining characters start with a digit. -/
def startsWithDigit : List Char → Bool
  | [] => false
  | c :: _ => isDigitCh c

/-- Wrap modulus of unsigned long on a 64-bit platform. -/
def ULONG_WRAP : Nat := 18446744073709551616

/-- Model of std::stoul base 10 on a 64-bit platform: skip leading spaces,
accept one optional sign, then require at least one decimal digit; a minus
sign negates modulo two to the 64.  None models the std::invalid_argument
throw when no digits are found (the out-of-range throw is not modelled; file
ids fit in 64 bits). -/
def stoul (s : String) : Option Nat :=
  match skipSpaces s.data with
  | [] => none
  | '-' :: rest =>
    if startsWithDigit rest then
      some ((ULONG_WRAP - takeDigits 0 rest % ULONG_WRAP) % ULONG_WRAP)
    else none
  | '+' :: rest =>
    if startsWithDigit rest then some (takeDigits 0 rest % ULONG_WRAP) else none
  | cs =>
    if startsWithDigit cs then some (takeDigits 0 cs % ULONG_WRAP) else none

/-- Sequential parse of the caller-supplied file id strings, as in the loop of
the query-by-file-id overload; the first malformed id aborts the parse (the
C++ loop throws out of std::stoul there). -/
def parseIds : List String → Option (List Nat)
  | [] => some []
  | id :: rest =>
    match stoul id with
    | none => none
    | some v => (parseIds rest).map (fun l => v :: l)

/-- Message of the exception thrown by std::stoul on a malformed number. -/
def invalidArgumentExc : String := "std::invalid_argument: stoul"

/-- DBImpl::Query overload taking explicit file ids: guard, parse every id as
an unsigned integer (a malformed id makes std::stoul throw, modelled as the
Except error), fetch the named files, fail with DB_ERROR on an empty result,
otherwise dispatch through QueryAsync. -/
def DBImpl.QueryByFileIds (sched : SearchJob → Status) (db : DBState) (tid : String)
    (file_ids : List String) (k nq nprobe : Nat) (vectors : Option (List Int))
    (dates : List Int) : Except String (Status × List SearchJob) :=
  if db.shutting_down then Except.ok (shuttingDownStatus, [])
  else
    match parseIds file_ids with
    | none => Except.error invalidArgumentExc
    | some ids =>
      let files := db.meta.FilesToSearch tid ids dates
      if files.isEmpty then Except.ok (⟨StatusCode.DB_ERROR, "Invalid file id"⟩, [])
      else Except.ok (DBImpl.QueryAsync sched files k nq nprobe vectors)

/-- External environment of PreloadTable: EngineFactory validity of a file
record (nullptr on an unknown engine type), the physical size reported by the
engine built on the file, whether loading raises, and the CPU cache capacity
and usage read from the cache manager. -/
structure EngineEnv where
  valid : TableFileSchema → Bool
  phys : TableFileSchema → Int
  loadOk : TableFileSchema → Bool
  cacheTotal : Int
  cacheUsage : Int

/-- Loop body of DBImpl::PreloadTable over the flattened file list: build the
engine (DB_ERROR when the factory refuses), accumulate the physical size,
return CacheFull as soon as the running total exceeds the available budget,
otherwise load with the index-only flag (second component true in the
returned load trace); a load exception becomes DB_ERROR. -/
def preloadLoop (env : EngineEnv) (avail : Int) :
    Int → List TableFileSchema → Status × List (TableFileSchema × Bool)
  | _, [] => (okStatus, [])
  | acc, f :: rest =>
    if env.valid f then
      let size := acc + env.phys f
      if size > avail then (cacheFullStatus, [])
      else if env.loadOk f then
        let r := preloadLoop env avail size rest
        (r.1, (f, true) :: r.2)
      else (⟨StatusCode.DB_ERROR, "Pre-load table encounter exception"⟩, [])
    else (invalidEngineStatus, [])

/-- DBImpl::PreloadTable: guard, enumerate the files to search with empty id
and date sets, compute the available cache budget once, then run the load
loop.  Returns the status and the trace of engine loads performed. -/
def DBImpl.PreloadTable (env : EngineEnv) (db : DBState) (tid : String) :
    Status × List (TableFileSchema × Bool) :=
  if db.shutting_down then (shuttingDownStatus, [])
  else
    let files := db.meta.FilesToSearch tid [] []
    preloadLoop env (env.cacheTotal - env.cacheUsage) 0 files

/-- Index of the first file at which the cumulative physical size strictly
exceeds the available budget, if any. -/
def firstOverflow (phys : TableFileSchema → Int) (avail : Int) :
    Int → List TableFileSchema → Option Nat
  | _, [] => none
  | acc, f :: rest =>
    if acc + phys f > avail then some 0
    else (firstOverflow phys avail (acc + phys f) rest).map (fun n => n + 1)

/-- TO_DELETE re-marking applied to every merged source file. -/
def fileToDelete (f : TableFileSchema) : TableFileSchema :=
  { f with file_type := FileType.TO_DELETE }

/-- External index engine as observed by MergeFiles: the engine accrues the
merged files in order; Size, PhysicalSize and Count are arbitrary functions of
the list of files merged so far, and serializeOk tells whether Serialize
raises (false models the out-of-disk-space exception path). -/
structure MergeEngine where
  size : List TableFileSchema → Int
  physicalSize : List TableFileSchema → Int
  count : List TableFileSchema → Nat
  serializeOk : List TableFileSchema → Bool

/-- Merge loop of DBImpl::MergeFiles: with done already merged, consume input
files in order, marking each consumed file TO_DELETE, and stop as soon as the
engine size reaches the index_file_size threshold of the file just consumed.
Returns the newly consumed files and their TO_DELETE records. -/
def mergeLoop (eng : MergeEngine) (done : List TableFileSchema) :
    List TableFileSchema → List TableFileSchema × List TableFileSchema
  | [] => ([], [])
  | f :: rest =>
    if eng.size (done ++ [f]) ≥ f.index_file_size then ([f], [fileToDelete f])
    else
      let r := mergeLoop eng (done ++ [f]) rest
      (f :: r.1, fileToDelete f :: r.2)

/-- Target record allocated by meta CreateTableFile for a merge: NEW_MERGE
state, fresh id and location, schema fields inherited from the table. -/
def newMergeFile (schema : TableSchema) (tid : String) (date : Int) (fid : Nat)
    (loc : String) : TableFileSchema :=
  { file_id := fid, table_id := tid, date := date, dimension := schema.dimension,
    file_size := 0, row_count := 0, location := loc,
    engine_type := schema.engine_type, metric_type := schema.metric_type,
    nlist := schema.nlist, index_file_size := schema.index_file_size,
    file_type := FileType.NEW_MERGE }

/-- Calls issued by MergeFiles against the metadata store, in order. -/
inductive MetaOp
  | createTableFile (f : TableFileSchema)
  | updateTableFile (f : TableFileSchema)
  | updateTableFiles (batch : List TableFileSchema)
deriving DecidableEq, Repr

/-- DBImpl::MergeFiles: create the NEW_MERGE target through meta (createOk
false models that call failing, aborting the merge), run the merge loop,
serialize (marking the target itself TO_DELETE on an exception), then decide
the target file_type (RAW for an IDMAP engine, otherwise TO_INDEX when the
physical size reaches the index_file_size threshold), record file_size and
row_count from the engine, and commit consumed sources plus target in one
UpdateTableFiles batch.  Returns the status and the meta call trace. -/
def DBImpl.MergeFiles (eng : MergeEngine) (createOk : Bool) (schema : TableSchema)
    (tid : String) (date : Int) (fid : Nat) (loc : String)
    (files : List TableFileSchema) : Status × List MetaOp :=
  let table_file := newMergeFile schema tid date fid loc
  if createOk then
    let r := mergeLoop eng [] files
    if eng.serializeOk r.1 then
      let ftype :=
        if table_file.engine_type ≠ EngineType.FAISS_IDMAP then
          (if eng.physicalSize r.1 ≥ table_file.index_file_size then FileType.TO_INDEX
           else FileType.RAW)
        else FileType.RAW
      let target := { table_file with
                      file_type := ftype,
                      file_size := eng.physicalSize r.1,
                      row_count := eng.count r.1 }
      (okStatus,
       [MetaOp.createTableFile table_file, MetaOp.updateTableFiles (r.2 ++ [target])])
    else
      (⟨StatusCode.DB_ERROR, "Serialize merged index encounter exception"⟩,
       [MetaOp.createTableFile table_file, MetaOp.updateTableFile (fileToDelete table_file)])
  else
    (⟨StatusCode.DB_ERROR, "Failed to create table file"⟩,
     [MetaOp.createTableFile table_file])

/-- Modelled from the spec: utils::IsSameIndex (Utils.cpp is not under src)
compares the engine type, nlist and metric type of two index descriptions. -/
def utils.IsSameIndex (a b : TableIndex) : Bool :=
  decide (a.engine_type = b.engine_type ∧ a.nlist = b.nlist ∧ a.metric_type = b.metric_type)

/-- Critical section of DBImpl::CreateIndex under the build-index mutex: read
the current index, overwrite the requested metric_type with the existing one,
and when the effective index differs, drop the old index and persist the new
one.  The Bool result records whether the drop-and-update branch ran. -/
def DBImpl.CreateIndexStep1 (m : MetaState) (tid : String) (index : TableIndex) :
    Status × MetaState × Bool :=
  let dr := m.DescribeTableIndex tid
  if dr.1.ok then
    let new_index := { index with metric_type := dr.2.metric_type }
    if utils.IsSameIndex dr.2 new_index then (okStatus, m, false)
    else
      let m1 := (m.DropTableIndex tid).2
      let u := m1.UpdateTableIndex tid new_index
      if u.1.ok then (okStatus, u.2, true) else (u.1, u.2, true)
  else (dr.1, m, false)

/-- File states watched by the CreateIndex poll loop, chosen from the
requested engine type. -/
def watchedTypes (engine_type : Int) : List FileType :=
  if engine_type = EngineType.FAISS_IDMAP then [FileType.NEW, FileType.NEW_MERGE]
  else [FileType.RAW, FileType.NEW, FileType.NEW_MERGE, FileType.NEW_INDEX, FileType.TO_INDEX]

/-- Poll loop of DBImpl::CreateIndex: while FilesByType on the watched states
is non-empty, re-mark RAW files TO_INDEX for non-IDMAP engines, sleep (during
which the background workers act on meta, modelled by the env function of the
attempt counter), and re-poll.  Fuel bounds the number of polls; None means
the loop was still running when fuel ran out. -/
def createIndexLoop (env : Nat → MetaState → MetaState) (tid : String) (engType : Int) :
    Nat → Nat → MetaState → Option MetaState
  | 0, _, _ => none
  | fuel + 1, times, m =>
    if (m.FilesByType tid (watchedTypes engType)).isEmpty then some m
    else
      let m1 := if engType ≠ EngineType.FAISS_IDMAP then m.UpdateTableFilesToIndex tid else m
      let m2 := env times m1
      createIndexLoop env tid engType fuel (times + 1) m2

/-- DBImpl::CreateIndex: no shutting-down guard; run the critical section,
wait for the merge future (a thread join without meta effect), then poll until
no file of the table is left in a watched state.  None means the poll loop had
not terminated within fuel steps. -/
def DBImpl.CreateIndex (env : Nat → MetaState → MetaState) (fuel : Nat) (db : DBState)
    (tid : String) (index : TableIndex) : Option (Status × DBState) :=
  let r := DBImpl.CreateIndexStep1 db.meta tid index
  if r.1.ok then
    match createIndexLoop env tid index.engine_type fuel 1 r.2.1 with
    | some m2 => some (okStatus, { db with meta := m2 })
    | none => none
  else some (r.1, { db with meta := r.2.1 })

/-- DBImpl::DescribeIndex: no shutting-down guard; read from meta. -/
def DBImpl.DescribeIndex (db : DBState) (tid : String) : Status × TableIndex :=
  db.meta.DescribeTableIndex tid

/-- DBImpl::DropIndex: no shutting-down guard; clear the index in meta. -/
def DBImpl.DropIndex (db : DBState) (tid : String) : Status × DBState :=
  let r := db.meta.DropTableIndex tid
  (r.1, { db with meta := r.2 })

/-- Concrete table schema used by witnesses: index_file_size of 5 (MB at the
API boundary, bytes inside merge records), non-IDMAP engine. -/
def wSchema : TableSchema := ⟨"t", 4, 5, 1, 2, 16, 0⟩

/-- Concrete RAW file of 10 bytes and 3 rows. -/
def wFileA : TableFileSchema := ⟨1, "t", 0, 4, 10, 3, "la", 2, 1, 16, 5, FileType.RAW⟩

/-- Concrete RAW file of 4 bytes and 4 rows. -/
def wFileB : TableFileSchema := ⟨2, "t", 0, 4, 4, 4, "lb", 2, 1, 16, 5, FileType.RAW⟩

/-- Concrete additive engine: sizes and counts are the sums over the merged
files, serialization never raises. -/
def wEng : MergeEngine :=
  ⟨fun fs => (fs.map TableFileSchema.file_size).sum,
   fun fs => (fs.map TableFileSchema.file_size).sum,
   fun fs => (fs.map TableFileSchema.row_count).sum,
   fun _ => true⟩

/-- Concrete requested index equal to the stored one of wSchema. -/
def wIdx : TableIndex := ⟨2, 1, 16⟩

/-- Identity sleep environment: the background workers change nothing. -/
def idEnv : Nat → MetaState → MetaState := fun _ m => m

/-- Scheduler stub whose jobs always succeed. -/
def okSched : SearchJob → Status := fun _ => okStatus

/-- Concrete preload environment: every engine builds and loads, physical size
is the recorded file_size, cache budget of 12 bytes. -/
def wEnv : EngineEnv := ⟨fun _ => true, fun f => f.file_size, fun _ => true, 12, 0⟩

/-- Stopped coordinator holding one index entry, used against the unguarded
index operations. -/
def cxDB : DBState := ⟨true, ⟨[], [], [("t", wIdx)]⟩, []⟩

/-- DBImpl::CreateIndex reads only the meta component of the coordinator
state: its status and resulting meta do not depend on the shutting_down flag. -/
theorem createIndex_ignores_flag (env : Nat → MetaState → MetaState) (fuel : Nat)
    (db : DBState) (b : Bool) (tid : String) (idx : TableIndex) :
    Option.map (fun p => (p.1, p.2.meta)) (DBImpl.CreateIndex env fuel db tid idx) =
    Option.map (fun p => (p.1, p.2.meta))
      (DBImpl.CreateIndex env fuel { db with shutting_down := b } tid idx) := by
  unfold DBImpl.CreateIndex
  by_cases hok : (DBImpl.CreateIndexStep1 db.meta tid idx).1.ok
  · cases hloop : createIndexLoop env tid idx.engine_type fuel 1
        (DBImpl.CreateIndexStep1 db.meta tid idx).2.1 <;> simp [hok, hloop]
  · simp [hok]

/-- Claim C1 (amended): when the coordinator is stopped, every public
operation except CreateIndex, DescribeIndex and DropIndex fails with the
ShuttingDown status and performs no state change; CreateIndex, DescribeIndex
and DropIndex perform no shutting-down check and proceed to meta regardless
of the flag. -/
theorem c1_shutdown_guard_amended (db : DBState) (h : db.shutting_down = true) :
    (∀ s, DBImpl.CreateTable db s = (shuttingDownStatus, db)) ∧
    (∀ tid dates, DBImpl.DeleteTable db tid dates = (shuttingDownStatus, db)) ∧
    (∀ s, DBImpl.DescribeTable db s = (shuttingDownStatus, s)) ∧
    (∀ tid, DBImpl.HasTable db tid = (shuttingDownStatus, false)) ∧
    (DBImpl.AllTables db = (shuttingDownStatus, [])) ∧
    (∀ env tid, DBImpl.PreloadTable env db tid = (shuttingDownStatus, [])) ∧
    (∀ tid flag, DBImpl.UpdateTableFlag db tid flag = (shuttingDownStatus, db)) ∧
    (∀ tid, DBImpl.GetTableRowCount db tid = (shuttingDownStatus, 0)) ∧
    (∀ tid n, DBImpl.InsertVectors db tid n = (shuttingDownStatus, db, [])) ∧
    (∀ sched today tid k nq nprobe v,
        DBImpl.Query sched today db tid k nq nprobe v = (shuttingDownStatus, [])) ∧
    (∀ sched tid k nq nprobe v dates,
        DBImpl.QueryByDates sched db tid k nq nprobe v dates = (shuttingDownStatus, [])) ∧
    (∀ sched tid fids k nq nprobe v dates,
        DBImpl.QueryByFileIds sched db tid fids k nq nprobe v dates =
          Except.ok (shuttingDownStatus, [])) ∧
    (DBImpl.Size db = (shuttingDownStatus, 0)) ∧
    (∀ tid, DBImpl.DescribeIndex db tid = db.meta.DescribeTableIndex tid) ∧
    (∀ tid, DBImpl.DropIndex db tid =
        ((db.meta.DropTableIndex tid).1, { db with meta := (db.meta.DropTableIndex tid).2 })) ∧
    (∀ env fuel tid idx,
        Option.map (fun p => (p.1, p.2.meta)) (DBImpl.CreateIndex env fuel db tid idx) =
        Option.map (fun p => (p.1, p.2.meta))
          (DBImpl.CreateIndex env fuel { db with shutting_down := false } tid idx)) := by
  refine ⟨?_, ?_, ?_, ?_, ?_, ?_, ?_, ?_, ?_, ?_, ?_, ?_, ?_, ?_, ?_, ?_⟩
  · intro s; simp [DBImpl.CreateTable, h]
  · intro tid dates; simp [DBImpl.DeleteTable, h]
  · intro s; simp [DBImpl.DescribeTable, h]
  · intro tid; simp [DBImpl.HasTable, h]
  · simp [DBImpl.AllTables, h]
  · intro env tid; simp [DBImpl.PreloadTable, h]
  · intro tid flag; simp [DBImpl.UpdateTableFlag, h]
  · intro tid; simp [DBImpl.GetTableRowCount, h]
  · intro tid n; simp [DBImpl.InsertVectors, h]
  · intro sched today tid k nq nprobe v; simp [DBImpl.Query, h]
  · intro sched tid k nq nprobe v dates; simp [DBImpl.QueryByDates, h]
  · intro sched tid fids k nq nprobe v dates; simp [DBImpl.QueryByFileIds, h]
  · simp [DBImpl.Size, h]
  · intro tid; rfl
  · intro tid; rfl
  · intro env fuel tid idx; exact createIndex_ignores_flag env fuel db false tid idx

/-- Claim C1 witness: a concrete stopped coordinator rejects CreateTable with
the ShuttingDown status and keeps its state. -/
theorem c1_shutdown_guard_witness :
    cxDB.shutting_down = true ∧ DBImpl.CreateTable cxDB wSchema = (shuttingDownStatus, cxDB) :=
  ⟨rfl, (c1_shutdown_guard_amended cxDB rfl).1 wSchema⟩

/-- Claim C1 counterexample: on a stopped coordinator, DropIndex does not fail
with the ShuttingDown status and does change coordinator state, refuting the
claim that every listed public operation is guarded. -/
theorem c1_shutdown_guard_counterexample :
    cxDB.shutting_down = true ∧
    (DBImpl.DropIndex cxDB "t").1 ≠ shuttingDownStatus ∧
    (DBImpl.DropIndex cxDB "t").2 ≠ cxDB := by decide

/-- Claim C4: CreateTable persists index_file_size scaled by ONE_MB and the
CreateTable-DescribeTable round trip returns the schema unchanged, every
field included. -/
theorem c4_create_describe_roundtrip (db : DBState) (s : TableSchema)
    (h1 : db.shutting_down = false)
    (h2 : lookupTable db.meta.tables s.table_id = none)
    (h3 : 0 < s.index_file_size) :
    (DBImpl.CreateTable db s).1 = okStatus ∧
    lookupTable (DBImpl.CreateTable db s).2.meta.tables s.table_id =
      some { s with index_file_size := s.index_file_size * ONE_MB } ∧
    (DBImpl.DescribeTable (DBImpl.CreateTable db s).2 s).1 = okStatus ∧
    (DBImpl.DescribeTable (DBImpl.CreateTable db s).2 s).2 = s := by
  have hdiv : s.index_file_size * ONE_MB / ONE_MB = s.index_file_size :=
    Int.mul_ediv_cancel _ (by norm_num [ONE_MB])
  obtain ⟨tid, dim, ifs, mt, et, nl, fl⟩ := s
  simp only [DBImpl.CreateTable, MetaState.CreateTable, DBImpl.DescribeTable,
    MetaState.DescribeTable, h1, if_false, Bool.false_eq_true] at *
  simp only [h2] at *
  simp [lookupTable, hdiv]

/-- Claim C4 witness: round trip on a concrete fresh table. -/
theorem c4_create_describe_roundtrip_witness :
    (DBImpl.CreateTable ⟨false, ⟨[], [], []⟩, []⟩ wSchema).1 = okStatus ∧
    lookupTable (DBImpl.CreateTable ⟨false, ⟨[], [], []⟩, []⟩ wSchema).2.meta.tables
        wSchema.table_id =
      some { wSchema with index_file_size := wSchema.index_file_size * ONE_MB } ∧
    (DBImpl.DescribeTable (DBImpl.CreateTable ⟨false, ⟨[], [], []⟩, []⟩ wSchema).2 wSchema).1 =
      okStatus ∧
    (DBImpl.DescribeTable (DBImpl.CreateTable ⟨false, ⟨[], [], []⟩, []⟩ wSchema).2 wSchema).2 =
      wSchema :=
  c4_create_describe_roundtrip ⟨false, ⟨[], [], []⟩, []⟩ wSchema rfl (by decide) (by decide)

/-- Claim C6 (amended): the coordinator performs no validation of k, nq or the
vector pointer: QueryAsync always submits exactly one SearchJob carrying the
given parameters unchanged, and the returned status is either OK or the
status of the submitted job, never a coordinator-side InvalidArgument. -/
theorem c6_no_validation_amended (sched : SearchJob → Status) (files : List TableFileSchema)
    (k nq nprobe : Nat) (vectors : Option (List Int)) :
    (DBImpl.QueryAsync sched files k nq nprobe vectors).2 = [⟨k, nq, nprobe, vectors, files⟩] ∧
    ((DBImpl.QueryAsync sched files k nq nprobe vectors).1 = okStatus ∨
     (DBImpl.QueryAsync sched files k nq nprobe vectors).1 =
       sched ⟨k, nq, nprobe, vectors, files⟩) := by
  unfold DBImpl.QueryAsync
  by_cases hok : (sched ⟨k, nq, nprobe, vectors, files⟩).ok <;> simp [hok]

/-- Coordinator with one searchable file on date 0, used by the query
counterexample. -/
def c6DB : DBState := ⟨false, ⟨[wSchema], [wFileA], [("t", wIdx)]⟩, []⟩

/-- Claim C6 counterexample: a Query with k equal to 0, nq equal to 0 and a
null vector pointer is not rejected: the job is submitted and the call
returns OK, refuting the claim that the coordinator validates these inputs. -/
theorem c6_no_validation_counterexample :
    (DBImpl.Query okSched 0 c6DB "t" 0 0 0 none).1 = okStatus ∧
    (DBImpl.Query okSched 0 c6DB "t" 0 0 0 none).2 = [⟨0, 0, 0, none, [wFileA]⟩] := by decide

/-- Claim C10: the merge loop always consumes the first input file, marking it
TO_DELETE, and when the engine size already meets the threshold after that
very first merge it consumes exactly that one file, because the size check
runs only after each merge step. -/
theorem c10_first_file_always_consumed (eng : MergeEngine) (f : TableFileSchema)
    (rest : List TableFileSchema) :
    (∃ m u, mergeLoop eng [] (f :: rest) = (f :: m, fileToDelete f :: u)) ∧
    (eng.size [f] ≥ f.index_file_size → mergeLoop eng [] (f :: rest) = ([f], [fileToDelete f])) := by
  constructor
  · by_cases hb : eng.size ([] ++ [f]) ≥ f.index_file_size
    · exact ⟨[], [], by unfold mergeLoop; rw [if_pos hb]⟩
    · refine ⟨(mergeLoop eng ([] ++ [f]) rest).1, (mergeLoop eng ([] ++ [f]) rest).2, ?_⟩
      conv_lhs => rw [mergeLoop]
      rw [if_neg hb]
  · intro hge
    unfold mergeLoop
    rw [if_pos (by simpa using hge)]

/-- Claim C10 witness: with the additive engine, the first concrete file
already exceeds its 5-byte threshold and is still merged and consumed. -/
theorem c10_first_file_always_consumed_witness :
    wEng.size [wFileA] ≥ wFileA.index_file_size ∧
    mergeLoop wEng [] [wFileA, wFileB] = ([wFileA], [fileToDelete wFileA]) :=
  ⟨by decide, (c10_first_file_always_consumed wEng wFileA [wFileB]).2 (by decide)⟩

/-- Consumed files and their TO_DELETE records of the merge loop coincide. -/
theorem mergeLoop_snd (eng : MergeEngine) :
    ∀ (files done : List TableFileSchema),
      (mergeLoop eng done files).2 = (mergeLoop eng done files).1.map fileToDelete := by
  intro files
  induction files with
  | nil => intro done; simp [mergeLoop]
  | cons f rest ih =>
    intro done
    rw [mergeLoop]
    by_cases hb : eng.size (done ++ [f]) ≥ f.index_file_size
    · rw [if_pos hb]; simp
    · rw [if_neg hb]
      show fileToDelete f :: (mergeLoop eng (done ++ [f]) rest).2 =
        (f :: (mergeLoop eng (done ++ [f]) rest).1).map fileToDelete
      simp [ih (done ++ [f])]

/-- Merged target record committed by MergeFiles on the success path: the
NEW_MERGE record promoted per the engine-type and size-threshold rule, with
file_size and row_count read from the engine. -/
def mergeTarget (eng : MergeEngine) (schema : TableSchema) (tid : String) (date : Int)
    (fid : Nat) (loc : String) (files : List TableFileSchema) : TableFileSchema :=
  let table_file := newMergeFile schema tid date fid loc
  let consumed := (mergeLoop eng [] files).1
  { table_file with
    file_type :=
      if table_file.engine_type ≠ EngineType.FAISS_IDMAP then
        (if eng.physicalSize consumed ≥ table_file.index_file_size then FileType.TO_INDEX
         else FileType.RAW)
      else FileType.RAW,
    file_size := eng.physicalSize consumed,
    row_count := eng.count consumed }

/-- The committed merge target is never in the TO_DELETE state. -/
theorem mergeTarget_not_deleted (eng : MergeEngine) (schema : TableSchema) (tid : String)
    (date : Int) (fid : Nat) (loc : String) (files : List TableFileSchema) :
    ((mergeTarget eng schema tid date fid loc files).file_type != FileType.TO_DELETE) = true := by
  unfold mergeTarget newMergeFile
  dsimp only
  split
  · split <;> decide
  · decide

/-- TO_DELETE records are dropped entirely by the non-deleted filter. -/
theorem filter_deleted_map (l : List TableFileSchema) :
    (l.map fileToDelete).filter (fun f => f.file_type != FileType.TO_DELETE) = [] := by
  induction l with
  | nil => rfl
  | cons a t ih => simp [fileToDelete, List.filter, ih]

/-- Claim C7: on the success path, MergeFiles commits the consumed sources
together with one target whose file_type is RAW for an IDMAP engine and
otherwise TO_INDEX exactly when the physical size reaches index_file_size,
and whose file_size and row_count come from the engine. -/
theorem c7_merge_target_state (eng : MergeEngine) (schema : TableSchema) (tid : String)
    (date : Int) (fid : Nat) (loc : String) (files : List TableFileSchema)
    (hser : eng.serializeOk (mergeLoop eng [] files).1 = true) :
    DBImpl.MergeFiles eng true schema tid date fid loc files =
      (okStatus,
       [MetaOp.createTableFile (newMergeFile schema tid date fid loc),
        MetaOp.updateTableFiles
          ((mergeLoop eng [] files).2 ++ [mergeTarget eng schema tid date fid loc files])]) ∧
    (mergeTarget eng schema tid date fid loc files).file_type =
      (if schema.engine_type = EngineType.FAISS_IDMAP then FileType.RAW
       else if eng.physicalSize (mergeLoop eng [] files).1 ≥ schema.index_file_size then
         FileType.TO_INDEX
       else FileType.RAW) ∧
    (mergeTarget eng schema tid date fid loc files).file_size =
      eng.physicalSize (mergeLoop eng [] files).1 ∧
    (mergeTarget eng schema tid date fid loc files).row_count =
      eng.count (mergeLoop eng [] files).1 := by
  refine ⟨?_, ?_, rfl, rfl⟩
  · simp only [DBImpl.MergeFiles, mergeTarget, hser, if_true]
  · unfold mergeTarget newMergeFile
    dsimp only
    by_cases hid : schema.engine_type = EngineType.FAISS_IDMAP
    · simp [hid]
    · simp [hid]

/-- Claim C7 witness: concrete merge where the physical size 10 meets the
threshold 5, so the target is promoted to TO_INDEX with the engine size and
count. -/
theorem c7_merge_target_state_witness :
    wEng.serializeOk (mergeLoop wEng [] [wFileA, wFileB]).1 = true ∧
    (DBImpl.MergeFiles wEng true wSchema "t" 0 9 "lt" [wFileA, wFileB] =
      (okStatus,
       [MetaOp.createTableFile (newMergeFile wSchema "t" 0 9 "lt"),
        MetaOp.updateTableFiles
          ((mergeLoop wEng [] [wFileA, wFileB]).2 ++ [mergeTarget wEng wSchema "t" 0 9 "lt" [wFileA, wFileB]])]) ∧
    (mergeTarget wEng wSchema "t" 0 9 "lt" [wFileA, wFileB]).file_type =
      (if wSchema.engine_type = EngineType.FAISS_IDMAP then FileType.RAW
       else if wEng.physicalSize (mergeLoop wEng [] [wFileA, wFileB]).1 ≥ wSchema.index_file_size then
         FileType.TO_INDEX
       else FileType.RAW) ∧
    (mergeTarget wEng wSchema "t" 0 9 "lt" [wFileA, wFileB]).file_size =
      wEng.physicalSize (mergeLoop wEng [] [wFileA, wFileB]).1 ∧
    (mergeTarget wEng wSchema "t" 0 9 "lt" [wFileA, wFileB]).row_count =
      wEng.count (mergeLoop wEng [] [wFileA, wFileB]).1) :=
  ⟨rfl, c7_merge_target_state wEng wSchema "t" 0 9 "lt" [wFileA, wFileB] rfl⟩

/-- Claim C2 (amended): on the success path, MergeFiles commits, in one single
UpdateTableFiles batch, the TO_DELETE records of every consumed input file
(the prefix the merge loop took before the size threshold stopped it) plus
exactly one non-deleted target whose row_count is the sum of the consumed
inputs row counts (for an engine whose count adds up the merged files). -/
theorem c2_merge_commit_amended (eng : MergeEngine) (schema : TableSchema) (tid : String)
    (date : Int) (fid : Nat) (loc : String) (files : List TableFileSchema)
    (hcount : ∀ fs, eng.count fs = (fs.map TableFileSchema.row_count).sum)
    (hser : eng.serializeOk (mergeLoop eng [] files).1 = true) :
    DBImpl.MergeFiles eng true schema tid date fid loc files =
      (okStatus,
       [MetaOp.createTableFile (newMergeFile schema tid date fid loc),
        MetaOp.updateTableFiles
          ((mergeLoop eng [] files).1.map fileToDelete ++
           [mergeTarget eng schema tid date fid loc files])]) ∧
    (∀ f ∈ (mergeLoop eng [] files).1,
        fileToDelete f ∈
          (mergeLoop eng [] files).1.map fileToDelete ++
          [mergeTarget eng schema tid date fid loc files]) ∧
    (mergeTarget eng schema tid date fid loc files).row_count =
      ((mergeLoop eng [] files).1.map TableFileSchema.row_count).sum ∧
    ((mergeLoop eng [] files).1.map fileToDelete ++
      [mergeTarget eng schema tid date fid loc files]).filter
        (fun f => f.file_type != FileType.TO_DELETE) =
      [mergeTarget eng schema tid date fid loc files] := by
  refine ⟨?_, ?_, ?_, ?_⟩
  · rw [← mergeLoop_snd eng files []]
    simp only [DBImpl.MergeFiles, mergeTarget, hser, if_true]
  · intro f hf
    exact List.mem_append_left _ (List.mem_map_of_mem fileToDelete hf)
  · show eng.count (mergeLoop eng [] files).1 = _
    exact hcount _
  · rw [List.filter_append, filter_deleted_map]
    simp [mergeTarget_not_deleted eng schema tid date fid loc files]

/-- Claim C2 witness: concrete success-path merge with the additive engine. -/
theorem c2_merge_commit_amended_witness :
    wEng.serializeOk (mergeLoop wEng [] [wFileA, wFileB]).1 = true ∧
    DBImpl.MergeFiles wEng true wSchema "t" 0 9 "lt" [wFileA, wFileB] =
      (okStatus,
       [MetaOp.createTableFile (newMergeFile wSchema "t" 0 9 "lt"),
        MetaOp.updateTableFiles
          ((mergeLoop wEng [] [wFileA, wFileB]).1.map fileToDelete ++
           [mergeTarget wEng wSchema "t" 0 9 "lt" [wFileA, wFileB]])]) :=
  ⟨rfl,
   (c2_merge_commit_amended wEng wSchema "t" 0 9 "lt" [wFileA, wFileB]
      (fun _ => rfl) rfl).1⟩

/-- Target record of the concrete counterexample merge: promoted to TO_INDEX
with size 10 and row count 3, the contributions of wFileA alone. -/
def c2Target : TableFileSchema := ⟨9, "t", 0, 4, 10, 3, "lt", 2, 1, 16, 5, FileType.TO_INDEX⟩

/-- Claim C2 counterexample: with two input files whose first already reaches
the size threshold, MergeFiles returns OK yet the committed batch contains no
TO_DELETE record for the second input file, and the row count of the new file
is not the sum over the whole input list, refuting the claim as stated. -/
theorem c2_merge_commit_counterexample :
    DBImpl.MergeFiles wEng true wSchema "t" 0 9 "lt" [wFileA, wFileB] =
      (okStatus,
       [MetaOp.createTableFile (newMergeFile wSchema "t" 0 9 "lt"),
        MetaOp.updateTableFiles [fileToDelete wFileA, c2Target]]) ∧
    fileToDelete wFileB ∉ [fileToDelete wFileA, c2Target] ∧
    c2Target.row_count ≠ wFileA.row_count + wFileB.row_count := by decide

/-- Exit condition of the CreateIndex poll loop: whenever the loop returns,
the meta state it returns shows no file of the table in a watched state. -/
theorem createIndexLoop_postcondition (env : Nat → MetaState → MetaState) (tid : String)
    (engType : Int) :
    ∀ (fuel times : Nat) (m mr : MetaState),
      createIndexLoop env tid engType fuel times m = some mr →
      mr.FilesByType tid (watchedTypes engType) = [] := by
  intro fuel
  induction fuel with
  | zero => intro times m mr h; simp [createIndexLoop] at h
  | succ n ih =>
    intro times m mr h
    rw [createIndexLoop] at h
    by_cases he : (m.FilesByType tid (watchedTypes engType)).isEmpty
    · rw [if_pos he] at h
      cases h
      exact List.isEmpty_iff.mp he
    · rw [if_neg he] at h
      exact ih _ _ _ h

/-- Claim C3: a successful CreateIndex returns only once no file of the table
is left in a watched state, the watched set being NEW and NEW_MERGE for the
IDMAP engine and RAW, NEW, NEW_MERGE, NEW_INDEX, TO_INDEX otherwise. -/
theorem c3_createindex_drains (env : Nat → MetaState → MetaState) (fuel : Nat) (db : DBState)
    (tid : String) (idx : TableIndex) (st : Status) (dbr : DBState)
    (h : DBImpl.CreateIndex env fuel db tid idx = some (st, dbr)) (hok : st = okStatus) :
    dbr.meta.FilesByType tid (watchedTypes idx.engine_type) = [] ∧
    watchedTypes EngineType.FAISS_IDMAP = [FileType.NEW, FileType.NEW_MERGE] ∧
    (idx.engine_type ≠ EngineType.FAISS_IDMAP →
      watchedTypes idx.engine_type =
        [FileType.RAW, FileType.NEW, FileType.NEW_MERGE, FileType.NEW_INDEX,
         FileType.TO_INDEX]) := by
  refine ⟨?_, by simp [watchedTypes], fun hne => by simp [watchedTypes, hne]⟩
  subst hok
  unfold DBImpl.CreateIndex at h
  by_cases hok1 : (DBImpl.CreateIndexStep1 db.meta tid idx).1.ok
  · rw [if_pos hok1] at h
    cases hloop : createIndexLoop env tid idx.engine_type fuel 1
        (DBImpl.CreateIndexStep1 db.meta tid idx).2.1 with
    | none => rw [hloop] at h; cases h
    | some m2 =>
      rw [hloop] at h
      have hdb : dbr = { db with meta := m2 } :=
        (congrArg Prod.snd (Option.some.inj h)).symm
      subst hdb
      exact createIndexLoop_postcondition env tid idx.engine_type fuel 1 _ m2 hloop
  · rw [if_neg hok1] at h
    have := Option.some.inj h
    have hst : (DBImpl.CreateIndexStep1 db.meta tid idx).1 = okStatus :=
      congrArg Prod.fst this
    rw [hst] at hok1
    exact absurd rfl hok1

/-- Stopped coordinator with an index entry and no files, used by the C3
witness (CreateIndex runs even though the coordinator is stopped). -/
def wDB3 : DBState := ⟨true, ⟨[wSchema], [], [("t", wIdx)]⟩, []⟩

/-- Claim C3 witness: a concrete CreateIndex that succeeds immediately leaves
no file of the table in a watched state. -/
theorem c3_createindex_drains_witness :
    DBImpl.CreateIndex idEnv 1 wDB3 "t" wIdx = some (okStatus, wDB3) ∧
    wDB3.meta.FilesByType "t" (watchedTypes wIdx.engine_type) = [] :=
  ⟨by decide, (c3_createindex_drains idEnv 1 wDB3 "t" wIdx okStatus wDB3 (by decide) rfl).1⟩

/-- Cache-overflow characterization of the preload loop: under valid engines
and non-raising loads, when the running size first exceeds the budget at
position i, the loop returns CacheFull having loaded exactly the files before
position i, each with the index-only flag. -/
theorem preloadLoop_overflow (env : EngineEnv) (avail : Int) :
    ∀ (files : List TableFileSchema) (acc : Int) (i : Nat),
      (∀ f ∈ files, env.valid f = true) → (∀ f ∈ files, env.loadOk f = true) →
      firstOverflow env.phys avail acc files = some i →
      preloadLoop env avail acc files =
        (cacheFullStatus, (files.take i).map (fun f => (f, true))) := by
  intro files
  induction files with
  | nil => intro acc i h1 h2 hov; simp [firstOverflow] at hov
  | cons f rest ih =>
    intro acc i h1 h2 hov
    rw [firstOverflow] at hov
    by_cases hb : acc + env.phys f > avail
    · rw [if_pos hb] at hov
      cases hov
      rw [preloadLoop, if_pos (h1 f (List.mem_cons_self f rest)), if_pos hb]
      simp
    · rw [if_neg hb] at hov
      obtain ⟨j, hj, rfl⟩ := Option.map_eq_some'.mp hov
      rw [preloadLoop, if_pos (h1 f (List.mem_cons_self f rest)), if_neg hb,
        if_pos (h2 f (List.mem_cons_self f rest))]
      rw [ih (acc + env.phys f) j (fun g hg => h1 g (List.mem_cons_of_mem f hg))
        (fun g hg => h2 g (List.mem_cons_of_mem f hg)) hj]
      simp

/-- Claim C5: PreloadTable accumulates the physical sizes of the files to be
searched in listing order against the budget capacity minus usage measured
once at the start; at the first file whose addition exceeds the budget it
returns CacheFull without loading that file or any later one, every earlier
file having been loaded with the index-only flag. -/
theorem c5_preload_cachefull (env : EngineEnv) (db : DBState) (tid : String) (i : Nat)
    (h0 : db.shutting_down = false)
    (h1 : ∀ f ∈ db.meta.FilesToSearch tid [] [], env.valid f = true)
    (h2 : ∀ f ∈ db.meta.FilesToSearch tid [] [], env.loadOk f = true)
    (hov : firstOverflow env.phys (env.cacheTotal - env.cacheUsage) 0
             (db.meta.FilesToSearch tid [] []) = some i) :
    DBImpl.PreloadTable env db tid =
      (cacheFullStatus,
       ((db.meta.FilesToSearch tid [] []).take i).map (fun f => (f, true))) := by
  unfold DBImpl.PreloadTable
  rw [if_neg (by simp [h0])]
  exact preloadLoop_overflow env (env.cacheTotal - env.cacheUsage)
    (db.meta.FilesToSearch tid [] []) 0 i h1 h2 hov

/-- Running coordinator with two searchable files of sizes 10 and 4 against a
cache budget of 12, used by the C5 witness. -/
def wDB5 : DBState := ⟨false, ⟨[wSchema], [wFileA, wFileB], [("t", wIdx)]⟩, []⟩

/-- Claim C5 witness: the second file overflows the budget, so PreloadTable
returns CacheFull having loaded only the first file. -/
theorem c5_preload_cachefull_witness :
    firstOverflow wEnv.phys (wEnv.cacheTotal - wEnv.cacheUsage) 0
      (wDB5.meta.FilesToSearch "t" [] []) = some 1 ∧
    DBImpl.PreloadTable wEnv wDB5 "t" =
      (cacheFullStatus,
       ((wDB5.meta.FilesToSearch "t" [] []).take 1).map (fun f => (f, true))) :=
  ⟨by decide,
   c5_preload_cachefull wEnv wDB5 "t" 1 rfl (by decide) (by decide) (by decide)⟩

@[simp] theorem okStatus_ok : okStatus.ok = true := rfl

@[simp] theorem lookupIdx_insert (l : List (String × TableIndex)) (tid : String)
    (v : TableIndex) : lookupIdx ((tid, v) :: l) tid = some v := by
  simp [lookupIdx]

/-- After one CreateIndex critical section on a table that has index info, the
call succeeds and meta stores the requested index with the metric type of the
previously stored one. -/
theorem step1_of_lookup (m : MetaState) (tid : String) (idx old : TableIndex)
    (h : lookupIdx m.indexes tid = some old) :
    (DBImpl.CreateIndexStep1 m tid idx).1 = okStatus ∧
    lookupIdx (DBImpl.CreateIndexStep1 m tid idx).2.1.indexes tid =
      some { idx with metric_type := old.metric_type } := by
  unfold DBImpl.CreateIndexStep1
  simp only [MetaState.DescribeTableIndex, h, okStatus_ok, if_true]
  by_cases hsame : utils.IsSameIndex old { idx with metric_type := old.metric_type } = true
  · have hold : old = { idx with metric_type := old.metric_type } := by
      have h3 := of_decide_eq_true hsame
      cases old
      cases idx
      simp only [utils.IsSameIndex] at h3
      simp_all
    rw [if_pos hsame]
    exact ⟨rfl, by rw [h]; exact congrArg some hold⟩
  · rw [if_neg hsame]
    simp only [MetaState.DropTableIndex, MetaState.UpdateTableIndex, okStatus_ok, if_true]
    exact ⟨trivial, by simp⟩

/-- A CreateIndex critical section that finds the effective index already
stored is a no-op: it skips the drop-and-update branch and leaves meta
unchanged. -/
theorem step1_same_noop (m : MetaState) (tid : String) (idx old : TableIndex)
    (h : lookupIdx m.indexes tid = some { idx with metric_type := old.metric_type }) :
    DBImpl.CreateIndexStep1 m tid idx = (okStatus, m, false) := by
  unfold DBImpl.CreateIndexStep1
  simp only [MetaState.DescribeTableIndex, h, okStatus_ok, if_true]
  rw [if_pos (by simp [utils.IsSameIndex])]

/-- Claim C8: with index info present, a first CreateIndex critical section
stores the requested index with the existing metric type; an immediately
repeated identical call succeeds, skips the drop-and-update branch (its
branch flag is false) and leaves meta unchanged, and after both calls the
stored metric type is still the original one. -/
theorem c8_createindex_idempotent (m : MetaState) (tid : String) (idx old : TableIndex)
    (h : lookupIdx m.indexes tid = some old) :
    (DBImpl.CreateIndexStep1 m tid idx).1 = okStatus ∧
    lookupIdx (DBImpl.CreateIndexStep1 m tid idx).2.1.indexes tid =
      some { idx with metric_type := old.metric_type } ∧
    DBImpl.CreateIndexStep1 (DBImpl.CreateIndexStep1 m tid idx).2.1 tid idx =
      (okStatus, (DBImpl.CreateIndexStep1 m tid idx).2.1, false) ∧
    lookupIdx (DBImpl.CreateIndexStep1 (DBImpl.CreateIndexStep1 m tid idx).2.1 tid idx).2.1.indexes
        tid = some { idx with metric_type := old.metric_type } := by
  obtain ⟨hst1, hlk1⟩ := step1_of_lookup m tid idx old h
  have hnoop := step1_same_noop (DBImpl.CreateIndexStep1 m tid idx).2.1 tid idx old hlk1
  refine ⟨hst1, hlk1, hnoop, ?_⟩
  rw [hnoop]
  exact hlk1

/-- Meta with a stored index whose metric differs from the requested one, used
by the C8 witness. -/
def wMeta8 : MetaState := ⟨[wSchema], [], [("t", ⟨3, 7, 32⟩)]⟩

/-- Requested index of the C8 witness: metric 9 will be overwritten by the
stored metric 7. -/
def wIdx8 : TableIndex := ⟨5, 9, 64⟩

/-- Claim C8 witness: concrete repeated CreateIndex critical sections on a
table whose stored index differs from the request. -/
theorem c8_createindex_idempotent_witness :
    lookupIdx wMeta8.indexes "t" = some ⟨3, 7, 32⟩ ∧
    ((DBImpl.CreateIndexStep1 wMeta8 "t" wIdx8).1 = okStatus ∧
     lookupIdx (DBImpl.CreateIndexStep1 wMeta8 "t" wIdx8).2.1.indexes "t" =
       some { wIdx8 with metric_type := (⟨3, 7, 32⟩ : TableIndex).metric_type } ∧
     DBImpl.CreateIndexStep1 (DBImpl.CreateIndexStep1 wMeta8 "t" wIdx8).2.1 "t" wIdx8 =
       (okStatus, (DBImpl.CreateIndexStep1 wMeta8 "t" wIdx8).2.1, false) ∧
     lookupIdx
         (DBImpl.CreateIndexStep1 (DBImpl.CreateIndexStep1 wMeta8 "t" wIdx8).2.1 "t"
             wIdx8).2.1.indexes "t" =
       some { wIdx8 with metric_type := (⟨3, 7, 32⟩ : TableIndex).metric_type }) :=
  ⟨by decide, c8_createindex_idempotent wMeta8 "t" wIdx8 ⟨3, 7, 32⟩ (by decide)⟩

/-- A malformed id anywhere in the list makes the sequential parse fail. -/
theorem parseIds_eq_none (id : String) (hbad : stoul id = none) :
    ∀ l : List String, id ∈ l → parseIds l = none := by
  intro l
  induction l with
  | nil => intro hmem; simp at hmem
  | cons a rest ih =>
    intro hmem
    rcases List.mem_cons.mp hmem with rfl | hmem2
    · rw [parseIds, hbad]
    · rw [parseIds]
      cases hsa : stoul a with
      | none => rfl
      | some v => rw [ih hmem2]; rfl

/-- Claim C9: in the query-by-file-id overload, a malformed (non-numeric) file
id makes the call fail with the invalid-argument error thrown by std::stoul,
propagated to the caller, and nothing else happens. -/
theorem c9_malformed_id_throws (sched : SearchJob → Status) (db : DBState) (tid : String)
    (file_ids : List String) (k nq nprobe : Nat) (vectors : Option (List Int))
    (dates : List Int) (id : String)
    (h0 : db.shutting_down = false) (hmem : id ∈ file_ids) (hbad : stoul id = none) :
    DBImpl.QueryByFileIds sched db tid file_ids k nq nprobe vectors dates =
      Except.error invalidArgumentExc := by
  unfold DBImpl.QueryByFileIds
  rw [if_neg (by simp [h0]), parseIds_eq_none id hbad file_ids hmem]

/-- Running coordinator used by the C9 witness. -/
def wDB9 : DBState := ⟨false, ⟨[wSchema], [wFileA], [("t", wIdx)]⟩, []⟩

/-- Claim C9 witness: a concrete query naming the malformed file id abc fails
with the invalid-argument error. -/
theorem c9_malformed_id_throws_witness :
    stoul "abc" = none ∧
    DBImpl.QueryByFileIds okSched wDB9 "t" ["12", "abc"] 1 1 1 none [] =
      Except.error invalidArgumentExc :=
  ⟨by decide,
   c9_malformed_id_throws okSched wDB9 "t" ["12", "abc"] 1 1 1 none [] "abc" rfl
     (by decide) (by decide)⟩
